import Mathlib

/-
Verification of the pysignald client library: a shallow embedding of the
command protocol client (send_command, register, verify), the message
stream reader (receive_messages) and the chat dispatcher (chat_handler,
run_chat) from src/main.py and src/types.py, together with theorems
settling the specification claims.

Modelling conventions:
  - JSON values are the inductive type JVal; a Python dict is an
    association list with unique keys in insertion order.
  - A wire line is a RawLine: its raw text together with the outcome of
    parsing it as JSON (none models a json.JSONDecodeError from
    json.loads).  The socket itself is external, so each embedded
    operation takes the lines the daemon would deliver as an argument.
  - Python dynamic errors become constructors of PyErr; functions that
    can raise return Except PyErr.  The constructor protocolError models
    the ValueError raised on an unexpected_error response, which the
    specification calls ProtocolError.
  - The randomly generated correlation id is a parameter (msgId).
-/

namespace Pysignald

/-- A JSON value; objects keep fields as an association list in
insertion order, as Python dicts produced by json.loads do. -/
inductive JVal where
  | null : JVal
  | bool : Bool → JVal
  | num : Int → JVal
  | str : String → JVal
  | arr : List JVal → JVal
  | obj : List (String × JVal) → JVal

/-- Dynamic Python errors that the embedded code can raise. -/
inductive PyErr where
  | nameError : PyErr
  | keyError : PyErr
  | typeError : PyErr
  | attributeError : PyErr
  | jsonDecodeError : PyErr
  | protocolError : PyErr
deriving DecidableEq

/-- First binding of a key in an association list, as Python dict lookup
(keys are unique in a dict, so first binding is the binding). -/
def jLookup (k : String) : List (String × JVal) → Option JVal
  | [] => none
  | (k2, v) :: rest => if k2 = k then some v else jLookup k rest

/-- Python truthiness of a JSON-derived value: None, False, 0, empty
string and empty containers are falsy. -/
def pyTruthy : JVal → Bool
  | JVal.null => false
  | JVal.bool b => b
  | JVal.num n => n != 0
  | JVal.str s => s != ""
  | JVal.arr xs => !xs.isEmpty
  | JVal.obj kvs => !kvs.isEmpty

/-- Python equality test of an optional JSON value against a string
literal: only the same string compares equal (v == s in Python). -/
def isStrEq (v : Option JVal) (s : String) : Bool :=
  match v with
  | some (JVal.str t) => t == s
  | _ => false

/-- Whether the first list is a prefix of the second, on characters. -/
def listPrefixEq : List Char → List Char → Bool
  | [], _ => true
  | _ :: _, [] => false
  | a :: as, b :: bs => a == b && listPrefixEq as bs

/-- Whether the needle occurs as a contiguous run inside the haystack. -/
def charsContain (hay needle : List Char) : Bool :=
  if listPrefixEq needle hay then true
  else
    match hay with
    | [] => false
    | _ :: t => charsContain t needle

/-- Substring test on strings (the Python test needle in hay). -/
def strContains (hay needle : String) : Bool :=
  charsContain hay.data needle.data

/-- Python v.get(k): returns the value or None; raises AttributeError
when v is not a dict. -/
def pyDictGet (v : JVal) (k : String) : Except PyErr (Option JVal) :=
  match v with
  | JVal.obj kvs => Except.ok (jLookup k kvs)
  | _ => Except.error PyErr.attributeError

/-- Python v.get(k, d): returns the value or the default; raises
AttributeError when v is not a dict. -/
def pyDictGetD (v : JVal) (k : String) (d : JVal) : Except PyErr JVal :=
  match v with
  | JVal.obj kvs => Except.ok ((jLookup k kvs).getD d)
  | _ => Except.error PyErr.attributeError

/-- Python v[k] on a JSON value: KeyError when the key is missing,
TypeError when v is not a dict. -/
def pyIndex (v : JVal) (k : String) : Except PyErr JVal :=
  match v with
  | JVal.obj kvs =>
      match jLookup k kvs with
      | some x => Except.ok x
      | none => Except.error PyErr.keyError
  | _ => Except.error PyErr.typeError

/-- Python k in v: key membership for dicts, element equality for
lists, substring for strings, TypeError otherwise. -/
def pyContainsKey (k : String) (v : JVal) : Except PyErr Bool :=
  match v with
  | JVal.obj kvs => Except.ok (kvs.any (fun p => p.1 == k))
  | JVal.arr xs =>
      Except.ok (xs.any (fun x =>
        match x with
        | JVal.str s => s == k
        | _ => false))
  | JVal.str s => Except.ok (strContains s k)
  | _ => Except.error PyErr.typeError

/-- Python dict item assignment d[k] = v: replaces an existing binding
in place, otherwise appends the new binding at the end. -/
def setItem (kvs : List (String × JVal)) (k : String) (v : JVal) :
    List (String × JVal) :=
  if kvs.any (fun p => p.1 == k) then
    kvs.map (fun p => if p.1 == k then (p.1, v) else p)
  else kvs ++ [(k, v)]

/-- One newline-delimited line from the daemon: its raw text and the
outcome of json.loads on it (none models a JSONDecodeError). -/
structure RawLine where
  raw : String
  parsed : Option JVal

/-- The correlation scan of Signal._send_command (src/main.py lines
59-72) over the lines of the single bounded response read.  A line not
containing the correlation id as a substring is skipped; a line
containing it is parsed (json.loads raises on malformed JSON, the
raise is not caught); a parsed envelope whose id field is not exactly
the correlation id is skipped; a matched envelope of type
unexpected_error raises (modelled by protocolError, the ValueError of
the source); otherwise the matched envelope is returned.  Falling off
the end returns none. -/
def scanLines (msgId : String) : List RawLine → Except PyErr (Option JVal)
  | [] => Except.ok none
  | l :: rest =>
    if strContains l.raw msgId then
      match l.parsed with
      | none => Except.error PyErr.jsonDecodeError
      | some d =>
        match pyDictGet d "id" with
        | Except.error e => Except.error e
        | Except.ok gid =>
          if isStrEq gid msgId then
            match pyIndex d "type" with
            | Except.error e => Except.error e
            | Except.ok t =>
              if isStrEq (some t) "unexpected_error" then
                Except.error PyErr.protocolError
              else Except.ok (some d)
          else scanLines msgId rest
    else scanLines msgId rest

/-- A line the correlation scan skips: it lacks the correlation id as a
substring, or it parses to a dict whose id field is not the id. -/
def lineSkipped (msgId : String) (l : RawLine) : Bool :=
  if strContains l.raw msgId then
    match l.parsed with
    | none => false
    | some d =>
      match pyDictGet d "id" with
      | Except.error _ => false
      | Except.ok gid => !(isStrEq gid msgId)
  else true

/-- Outcome of one command send: the JSON object written to the wire
and the returned value or raised error. -/
structure CmdResult where
  sent : List (String × JVal)
  result : Except PyErr (Option JVal)

/-- Signal._send_command (src/main.py lines 49-72).  The payload gets
the generated correlation id injected and is written to a fresh
connection.  When block is false the call returns None immediately
without reading; when block is true the bounded response read is
scanned for the correlated envelope. -/
def send_command (payload : List (String × JVal)) (msgId : String)
    (response : List RawLine) (block : Bool := false) : CmdResult :=
  let payload2 := setItem payload "id" (JVal.str msgId)
  { sent := payload2,
    result := if block then scanLines msgId response else Except.ok none }

/-- Signal.register (src/main.py lines 74-81): builds the register
payload and calls _send_command with the default block value. -/
def register (username : String) (voice : Bool) (msgId : String)
    (response : List RawLine) : CmdResult :=
  send_command
    [("type", JVal.str "register"), ("username", JVal.str username),
     ("voice", JVal.bool voice)] msgId response

/-- Signal.verify (src/main.py lines 83-90): builds the verify payload
and calls _send_command with the default block value. -/
def verify (username : String) (code : String) (msgId : String)
    (response : List RawLine) : CmdResult :=
  send_command
    [("type", JVal.str "verify"), ("username", JVal.str username),
     ("code", JVal.str code)] msgId response

/-- An attachment as built by Signal.receive_messages from an inbound
attachment object (src/types.py lines 4-9; all four fields are read
with item access, so a missing field raises). -/
structure Attachment where
  content_type : JVal
  id : JVal
  size : JVal
  stored_filename : JVal

/-- A normalized inbound chat message (src/types.py lines 12-22).  The
optional fields hold the value Signal.receive_messages actually passes:
dict.get results, which are None (here none) when the key is absent —
the attrs defaults of the class never apply on this construction path
because every argument is passed explicitly. -/
structure Message where
  username : JVal
  source : JVal
  text : JVal
  source_device : Option JVal
  timestamp : Option JVal
  timestamp_iso : Option JVal
  group_info : JVal
  attachments : List Attachment

/-- Builds one Attachment from an inbound attachment object
(src/main.py lines 124-129): each field uses item access, so a missing
key raises KeyError and a non-dict element raises TypeError. -/
def buildAttachment (a : JVal) : Except PyErr Attachment := do
  let ct ← pyIndex a "contentType"
  let i ← pyIndex a "id"
  let sz ← pyIndex a "size"
  let sf ← pyIndex a "storedFilename"
  Except.ok { content_type := ct, id := i, size := sz, stored_filename := sf }

/-- Builds the attachment list from the attachments value of a
dataMessage (src/main.py lines 123-131); iterating a non-list raises. -/
def buildAttachments (v : JVal) : Except PyErr (List Attachment) :=
  match v with
  | JVal.arr xs => xs.mapM buildAttachment
  | _ => Except.error PyErr.typeError

/-- Builds the Message yielded for one surviving envelope, from its
data object d (src/main.py lines 112-132), reading the fields in the
evaluation order of the source: dataMessage first, then the keyword
arguments of the Message constructor left to right.  Note that
sourceDevice is read with a default-less get, so it is None when
absent. -/
def buildMessage (d : JVal) : Except PyErr Message := do
  let dm ← pyDictGetD d "dataMessage" (JVal.obj [])
  let username ← pyDictGetD d "username" (JVal.str "")
  let source ← pyDictGetD d "source" (JVal.str "")
  let text ← pyDictGetD dm "body" (JVal.str "")
  let sourceDevice ← pyDictGet d "sourceDevice"
  let timestamp ← pyDictGet dm "timestamp"
  let timestampIso ← pyDictGet d "timestampISO"
  let groupInfo ← pyDictGetD dm "group" (JVal.obj [])
  let attVal ← pyDictGetD dm "attachments" (JVal.arr [])
  let atts ← buildAttachments attVal
  Except.ok
    { username := username, source := source, text := text,
      source_device := sourceDevice, timestamp := timestamp,
      timestamp_iso := timestampIso, group_info := groupInfo,
      attachments := atts }

/-- One iteration of the read loop of Signal.receive_messages
(src/main.py lines 97-132) on one inbound line.  The state mvar is the
current value of the Python local variable message, none while it is
still unbound.  A line that fails to parse leaves the variable
untouched (the except branch only prints, there is no continue), so
the stale previous value — or an unbound variable, raising NameError —
is what the following code then inspects.  Skipped envelopes update
the variable without yielding; surviving envelopes rebind it to their
data object and yield a Message. -/
def receiveStep (mvar : Option JVal) (l : RawLine) :
    Except PyErr (Option JVal × Option Message) :=
  let mv := match l.parsed with
    | some v => some v
    | none => mvar
  match mv with
  | none => Except.error PyErr.nameError
  | some msg =>
    match pyDictGet msg "type" with
    | Except.error e => Except.error e
    | Except.ok t =>
      if isStrEq t "message" then
        match pyIndex msg "data" with
        | Except.error e => Except.error e
        | Except.ok d =>
          match pyContainsKey "typing" d with
          | Except.error e => Except.error e
          | Except.ok hasTyping =>
            if hasTyping then Except.ok (some msg, none)
            else
              match buildMessage d with
              | Except.error e => Except.error e
              | Except.ok m => Except.ok (some d, some m)
      else Except.ok (some msg, none)

/-- Runs the read loop of Signal.receive_messages over a list of
inbound lines from the state mvar, returning the Messages yielded in
order and, when an iteration raises, the error that terminated the
generator (the lines after it are not reached). -/
def receiveLoop (mvar : Option JVal) :
    List RawLine → List Message × Option PyErr
  | [] => ([], none)
  | l :: rest =>
    match receiveStep mvar l with
    | Except.error e => ([], some e)
    | Except.ok (mvar2, om) =>
      let p := receiveLoop mvar2 rest
      (match om with
       | some m => m :: p.1
       | none => p.1, p.2)

/-- Signal.receive_messages (src/main.py lines 92-132) applied to the
inbound lines of the subscription connection: the local variable
message starts unbound. -/
def receive_messages (lines : List RawLine) : List Message × Option PyErr :=
  receiveLoop none lines

/-- What a chat handler does when invoked on a message: raise, return a
bare reply string, or return a (stop, reply) pair.  The regex match
object passed alongside the message is abstracted away because the
dispatch code never inspects it. -/
inductive HandlerOutcome where
  | raises : HandlerOutcome
  | reply : String → HandlerOutcome
  | replyStop : Bool → String → HandlerOutcome

/-- One registration of the dispatcher list: the order key, the
compiled pattern (abstracted to its re.search success on a text), and
the handler function. -/
structure Reg where
  order : Int
  pattern : String → Bool
  handler : Message → HandlerOutcome

/-- A reply send performed by run_chat: either send_group_message with
a recipientGroupId, or send_message to a recipient. -/
inductive SendAction where
  | group : JVal → String → SendAction
  | direct : JVal → String → SendAction

/-- The reply routing block of Signal.run_chat (src/main.py lines
230-236): group_id = message.group_info.get("groupId"); a truthy value
routes the reply to send_group_message with that value, anything else
(a falsy value or an absent key) routes it to send_message with
message.source. -/
def routeReply (msg : Message) (reply : String) : Except PyErr SendAction :=
  match pyDictGet msg.group_info "groupId" with
  | Except.error e => Except.error e
  | Except.ok gid =>
    match gid with
    | some g =>
        if pyTruthy g then Except.ok (SendAction.group g reply)
        else Except.ok (SendAction.direct msg.source reply)
    | none => Except.ok (SendAction.direct msg.source reply)

/-- The inner registration loop of Signal.run_chat (src/main.py lines
215-240) on one message, returning the reply sends it performs in
order.  re.search runs against message.text, so a non-string text
raises TypeError at the first registration; a non-matching pattern
skips to the next registration; a raising handler is swallowed and the
loop continues with the next registration; a bare string reply stops
after routing; a (stop, reply) pair routes and stops only when stop is
true. -/
def tryHandlers (msg : Message) : List Reg → Except PyErr (List SendAction)
  | [] => Except.ok []
  | r :: rest =>
    match msg.text with
    | JVal.str t =>
      if r.pattern t then
        match r.handler msg with
        | HandlerOutcome.raises => tryHandlers msg rest
        | HandlerOutcome.reply rep =>
          match routeReply msg rep with
          | Except.error e => Except.error e
          | Except.ok act => Except.ok [act]
        | HandlerOutcome.replyStop stop rep =>
          match routeReply msg rep with
          | Except.error e => Except.error e
          | Except.ok act =>
            if stop then Except.ok [act]
            else
              match tryHandlers msg rest with
              | Except.error e => Except.error e
              | Except.ok more => Except.ok (act :: more)
      else tryHandlers msg rest
    | _ => Except.error PyErr.typeError

/-- The body of Signal.run_chat for one incoming message (src/main.py
lines 211-240): a message with falsy text is skipped outright,
otherwise the registration list is evaluated in order. -/
def dispatchMessage (handlers : List Reg) (msg : Message) :
    Except PyErr (List SendAction) :=
  if pyTruthy msg.text then tryHandlers msg handlers else Except.ok []

/-- Signal.run_chat (src/main.py lines 207-240) over a list of incoming
messages: processes them sequentially, concatenating the reply sends;
an uncaught error terminates the loop (later messages unreached). -/
def runChat (handlers : List Reg) : List Message → List SendAction × Option PyErr
  | [] => ([], none)
  | m :: ms =>
    match dispatchMessage handlers m with
    | Except.error e => ([], some e)
    | Except.ok acts =>
      let p := runChat handlers ms
      (acts ++ p.1, p.2)

/-- Stable insertion of a registration into a list ordered by the
order key: the new element goes before the first element whose order
is not smaller, hence after nothing it is tied with when used by
sortRegs below. -/
def insortReg (r : Reg) : List Reg → List Reg
  | [] => [r]
  | y :: ys => if r.order ≤ y.order then r :: y :: ys else y :: insortReg r ys

/-- Stable sort of the registration list on the order key alone,
modelling list.sort(key=lambda x: x[0]) of src/main.py line 202
(Python list.sort is stable). -/
def sortRegs : List Reg → List Reg
  | [] => []
  | r :: rs => insortReg r (sortRegs rs)

/-- Signal.chat_handler registration effect (src/main.py lines
192-205): append the new (order, pattern, handler) registration, then
stably re-sort the list by the order key only. -/
def chat_handler (st : List Reg) (r : Reg) : List Reg :=
  sortRegs (st ++ [r])

/-- The registration list reached from an empty dispatcher by a
sequence of chat_handler registrations, in sequence order. -/
def registerAll (rs : List Reg) : List Reg :=
  rs.foldl chat_handler []

/-- Unfolding equation of scanLines on a malformed line. -/
theorem scanLines_cons_none (msgId raw : String) (rest : List RawLine) :
    scanLines msgId (⟨raw, none⟩ :: rest)
      = if strContains raw msgId = true then Except.error PyErr.jsonDecodeError
        else scanLines msgId rest := rfl

/-- Unfolding equation of scanLines on a well-formed line. -/
theorem scanLines_cons_some (msgId raw : String) (d : JVal)
    (rest : List RawLine) :
    scanLines msgId (⟨raw, some d⟩ :: rest)
      = if strContains raw msgId = true then
          match pyDictGet d "id" with
          | Except.error e => Except.error e
          | Except.ok gid =>
            if isStrEq gid msgId = true then
              match pyIndex d "type" with
              | Except.error e => Except.error e
              | Except.ok t =>
                if isStrEq (some t) "unexpected_error" = true then
                  Except.error PyErr.protocolError
                else Except.ok (some d)
            else scanLines msgId rest
        else scanLines msgId rest := rfl

/-- A line the correlation scan skips leaves the scan result unchanged. -/
theorem scan_skip (msgId : String) (l : RawLine) (rest : List RawLine)
    (h : lineSkipped msgId l = true) :
    scanLines msgId (l :: rest) = scanLines msgId rest := by
  obtain ⟨raw, parsed⟩ := l
  by_cases hc : strContains raw msgId = true
  · cases parsed with
    | none =>
      exfalso
      have h2 : (if strContains raw msgId = true then false else true) = true := h
      rw [if_pos hc] at h2
      exact Bool.false_ne_true h2
    | some d =>
      have h2 : (if strContains raw msgId = true then
          match pyDictGet d "id" with
          | Except.error _ => false
          | Except.ok gid => !(isStrEq gid msgId)
        else true) = true := h
      rw [if_pos hc] at h2
      rw [scanLines_cons_some, if_pos hc]
      cases hg : pyDictGet d "id" with
      | error e =>
        rw [hg] at h2
        exact absurd h2 (by simp)
      | ok gid =>
        rw [hg] at h2
        rw [Bool.not_eq_true'] at h2
        simp [h2]
  · cases parsed with
    | none => rw [scanLines_cons_none, if_neg hc]
    | some d => rw [scanLines_cons_some, if_neg hc]

/-- A block of skipped lines before the rest leaves the scan result
unchanged. -/
theorem scan_skip_all (msgId : String) (pre rest : List RawLine)
    (h : ∀ l ∈ pre, lineSkipped msgId l = true) :
    scanLines msgId (pre ++ rest) = scanLines msgId rest := by
  induction pre with
  | nil => rfl
  | cons a t ih =>
    rw [List.cons_append, scan_skip msgId a (t ++ rest) (h a (by simp))]
    exact ih (fun l hl => h l (by simp [hl]))

/-- Unfolding equation of tryHandlers on a cons cell. -/
theorem tryHandlers_cons (msg : Message) (r : Reg) (rest : List Reg) :
    tryHandlers msg (r :: rest)
      = match msg.text with
        | JVal.str t =>
          if r.pattern t then
            match r.handler msg with
            | HandlerOutcome.raises => tryHandlers msg rest
            | HandlerOutcome.reply rep =>
              match routeReply msg rep with
              | Except.error e => Except.error e
              | Except.ok act => Except.ok [act]
            | HandlerOutcome.replyStop stop rep =>
              match routeReply msg rep with
              | Except.error e => Except.error e
              | Except.ok act =>
                if stop then Except.ok [act]
                else
                  match tryHandlers msg rest with
                  | Except.error e => Except.error e
                  | Except.ok more => Except.ok (act :: more)
          else tryHandlers msg rest
        | _ => Except.error PyErr.typeError := rfl

/-- A registration whose handler raises on the message contributes
nothing: the inner loop continues with the remaining registrations. -/
theorem tryHandlers_raises (msg : Message) (t : String) (r : Reg)
    (rest : List Reg) (htext : msg.text = JVal.str t)
    (hr : r.handler msg = HandlerOutcome.raises) :
    tryHandlers msg (r :: rest) = tryHandlers msg rest := by
  rw [tryHandlers_cons, htext]
  by_cases hp : r.pattern t = true
  · simp only [hp, if_true, hr]
  · simp only [Bool.not_eq_true] at hp
    simp only [hp, Bool.false_eq_true, if_false]

/-- When every registration raises on the message, the inner loop
performs no sends and returns normally. -/
theorem tryHandlers_all_raises (msg : Message) (t : String) (hs : List Reg)
    (htext : msg.text = JVal.str t)
    (hall : ∀ r ∈ hs, r.handler msg = HandlerOutcome.raises) :
    tryHandlers msg hs = Except.ok [] := by
  induction hs with
  | nil => rfl
  | cons a rest ih =>
    rw [tryHandlers_raises msg t a rest htext (hall a (by simp))]
    exact ih (fun r hr => hall r (by simp [hr]))

/-- Unfolding equation of the stable insertion on a cons cell. -/
theorem insort_cons (r y : Reg) (ys : List Reg) :
    insortReg r (y :: ys)
      = if r.order ≤ y.order then r :: y :: ys else y :: insortReg r ys := rfl

/-- Membership in the stable insertion. -/
theorem mem_insort (r a : Reg) (l : List Reg) :
    a ∈ insortReg r l ↔ a = r ∨ a ∈ l := by
  induction l with
  | nil => simp [insortReg]
  | cons y ys ih =>
    rw [insort_cons]
    by_cases h : r.order ≤ y.order
    · rw [if_pos h]
      simp only [List.mem_cons]
    · rw [if_neg h]
      simp only [List.mem_cons, ih]
      tauto

/-- Stable insertion preserves ordering by the order key. -/
theorem pairwise_insort (r : Reg) (l : List Reg)
    (h : List.Pairwise (fun a b => a.order ≤ b.order) l) :
    List.Pairwise (fun a b => a.order ≤ b.order) (insortReg r l) := by
  induction l with
  | nil => simp [insortReg]
  | cons y ys ih =>
    rw [List.pairwise_cons] at h
    obtain ⟨hy, hys⟩ := h
    rw [insort_cons]
    by_cases hle : r.order ≤ y.order
    · rw [if_pos hle, List.pairwise_cons]
      refine ⟨?_, ?_⟩
      · intro b hb
        rcases List.mem_cons.mp hb with hb | hb
        · subst hb; exact hle
        · exact le_trans hle (hy b hb)
      · rw [List.pairwise_cons]; exact ⟨hy, hys⟩
    · rw [if_neg hle, List.pairwise_cons]
      refine ⟨?_, ih hys⟩
      intro b hb
      rcases (mem_insort r b ys).mp hb with hb | hb
      · subst hb; exact le_of_not_le hle
      · exact hy b hb

/-- The registration sort yields a list ordered by the order key. -/
theorem sortRegs_pairwise (l : List Reg) :
    List.Pairwise (fun a b => a.order ≤ b.order) (sortRegs l) := by
  induction l with
  | nil => simp [sortRegs]
  | cons r rs ih => exact pairwise_insort r (sortRegs rs) ih

/-- Stable insertion on the class of one order key: the inserted
element lands in front of the class elements only when it belongs to
the class, because the insertion point is past exactly the elements
with strictly smaller keys. -/
theorem filter_insort (r : Reg) (l : List Reg) (q : Int) :
    (insortReg r l).filter (fun x => x.order == q)
      = if r.order = q then r :: l.filter (fun x => x.order == q)
        else l.filter (fun x => x.order == q) := by
  induction l with
  | nil =>
    by_cases hrq : r.order = q <;>
      simp [insortReg, List.filter_cons, beq_iff_eq, hrq]
  | cons y ys ih =>
    rw [insort_cons]
    by_cases hle : r.order ≤ y.order
    · rw [if_pos hle]
      by_cases hrq : r.order = q <;>
        simp [List.filter_cons, beq_iff_eq, hrq]
    · rw [if_neg hle]
      have hlt : y.order < r.order := lt_of_not_le hle
      by_cases hrq : r.order = q
      · have hyq : ¬ y.order = q := by omega
        rw [if_pos hrq]
        simp [List.filter_cons, beq_iff_eq, hyq, ih, hrq]
      · rw [if_neg hrq]
        by_cases hyq : y.order = q <;>
          simp [List.filter_cons, beq_iff_eq, hyq, ih, hrq]

/-- The registration sort preserves each order class in sequence order
(the stability of the sort, phrased per key). -/
theorem sortRegs_filter (l : List Reg) (q : Int) :
    (sortRegs l).filter (fun x => x.order == q)
      = l.filter (fun x => x.order == q) := by
  induction l with
  | nil => rfl
  | cons r rs ih =>
    show (insortReg r (sortRegs rs)).filter _ = _
    rw [filter_insort]
    by_cases hrq : r.order = q <;>
      simp [List.filter_cons, beq_iff_eq, hrq, ih]

/-- Registering a sequence of handlers preserves each order class of
the sequence, whatever list the dispatcher started from. -/
theorem foldl_chat_handler_filter (rs : List Reg) (st : List Reg) (q : Int) :
    (rs.foldl chat_handler st).filter (fun x => x.order == q)
      = st.filter (fun x => x.order == q)
        ++ rs.filter (fun x => x.order == q) := by
  induction rs generalizing st with
  | nil => simp
  | cons r rest ih =>
    rw [List.foldl_cons, ih]
    show (sortRegs (st ++ [r])).filter _ ++ _ = _
    rw [sortRegs_filter, List.filter_append]
    by_cases hrq : r.order = q <;>
      simp [List.filter_cons, beq_iff_eq, hrq]

/-- Registering a sequence of handlers keeps the list ordered by the
order key. -/
theorem foldl_chat_handler_pairwise (rs : List Reg) (st : List Reg)
    (h : List.Pairwise (fun a b => a.order ≤ b.order) st) :
    List.Pairwise (fun a b => a.order ≤ b.order) (rs.foldl chat_handler st) := by
  induction rs generalizing st with
  | nil => exact h
  | cons r rest ih =>
    rw [List.foldl_cons]
    exact ih (sortRegs (st ++ [r])) (sortRegs_pairwise (st ++ [r]))

/-- Unfolding equation of receiveLoop on a cons cell. -/
theorem receiveLoop_cons (mvar : Option JVal) (l : RawLine)
    (rest : List RawLine) :
    receiveLoop mvar (l :: rest)
      = match receiveStep mvar l with
        | Except.error e => ([], some e)
        | Except.ok (mvar2, om) =>
          (match om with
           | some m => m :: (receiveLoop mvar2 rest).1
           | none => (receiveLoop mvar2 rest).1, (receiveLoop mvar2 rest).2) := rfl

/-- Unfolding equation of runChat on a cons cell. -/
theorem runChat_cons (handlers : List Reg) (m : Message) (ms : List Message) :
    runChat handlers (m :: ms)
      = match dispatchMessage handlers m with
        | Except.error e => ([], some e)
        | Except.ok acts =>
          (acts ++ (runChat handlers ms).1, (runChat handlers ms).2) := rfl

/-- Claim C2 (code bug): the spec says a line that fails to parse as
JSON is reported and skipped and the stream continues as if the line
had never arrived.  In the source the except branch only prints and
does not continue, so the loop body then reads the variable message,
which is still unbound when the very first line is malformed: the
stream dies with a NameError instead of skipping the line (and on
later lines it reprocesses the stale previous envelope).  This theorem
evaluates the embedded code at the failing input: a subscription
stream whose first line is malformed terminates with nameError and
yields nothing, where the claim demands the same yields as for an
empty stream with no error. -/
theorem c2_code_bug :
    receive_messages [⟨"not json", none⟩] = ([], some PyErr.nameError) := rfl

/-- Claim C7 (code bug): the spec says source_device defaults to 0
when the inbound event omits sourceDevice, and the attrs declaration
in src/types.py indeed declares default 0, but receive_messages passes
source_device with a default-less dict get, which is None when the key
is absent — the explicit argument overrides the attrs default.  The
embedded code, run on a message event without sourceDevice, yields a
Message whose source_device is none, not 0. -/
theorem c7_code_bug :
    receive_messages
        [⟨"\x7b\x22type\x22: \x22message\x22, \x22data\x22: \x7b\x22username\x22: \x22u\x22, \x22source\x22: \x22s\x22, \x22dataMessage\x22: \x7b\x22body\x22: \x22hi\x22\x7d\x7d\x7d",
          some (JVal.obj [("type", JVal.str "message"),
            ("data", JVal.obj [("username", JVal.str "u"),
              ("source", JVal.str "s"),
              ("dataMessage", JVal.obj [("body", JVal.str "hi")])])])⟩]
      = ([{ username := JVal.str "u", source := JVal.str "s",
            text := JVal.str "hi", source_device := none, timestamp := none,
            timestamp_iso := none, group_info := JVal.obj [],
            attachments := [] }], none)
    ∧ (receive_messages
        [⟨"\x7b\x22type\x22: \x22message\x22, \x22data\x22: \x7b\x22username\x22: \x22u\x22, \x22source\x22: \x22s\x22, \x22dataMessage\x22: \x7b\x22body\x22: \x22hi\x22\x7d\x7d\x7d",
          some (JVal.obj [("type", JVal.str "message"),
            ("data", JVal.obj [("username", JVal.str "u"),
              ("source", JVal.str "s"),
              ("dataMessage", JVal.obj [("body", JVal.str "hi")])])])⟩]).1.map
          Message.source_device ≠ [some (JVal.num 0)] := by
  refine ⟨rfl, ?_⟩
  intro h
  have h2 : ([none] : List (Option JVal)) = [some (JVal.num 0)] := h
  simp at h2

/-- Claim C10 (confirmed): an inbound envelope whose type field equals
message but whose object has no data key makes receive_messages raise
KeyError at the item access message data, terminating the subscription
stream regardless of the lines that follow, rather than skipping the
envelope. -/
theorem c10_missing_data :
    ∀ (mvar : Option JVal) (raw : String) (kvs : List (String × JVal))
      (rest : List RawLine),
      jLookup "type" kvs = some (JVal.str "message") →
      jLookup "data" kvs = none →
      receiveLoop mvar (⟨raw, some (JVal.obj kvs)⟩ :: rest)
        = ([], some PyErr.keyError) := by
  intro mvar raw kvs rest htype hdata
  have hstep : receiveStep mvar ⟨raw, some (JVal.obj kvs)⟩
      = Except.error PyErr.keyError := by
    simp [receiveStep, pyDictGet, pyIndex, isStrEq, htype, hdata]
  rw [receiveLoop_cons, hstep]

/-- Claim C10 witness: the theorem applied to a concrete envelope of
type message with no data key, in front of a further line that is
never reached. -/
theorem c10_witness :
    receiveLoop none [⟨"x", some (JVal.obj [("type", JVal.str "message")])⟩,
        ⟨"y", none⟩]
      = ([], some PyErr.keyError) :=
  c10_missing_data none "x" [("type", JVal.str "message")] [⟨"y", none⟩]
    rfl rfl

/-- Claim C3 counterexample: the claim says register and verify always
send in blocking mode and surface a ProtocolError on an
unexpected_error response.  At a concrete input whose response stream
holds exactly the correlated unexpected_error envelope, register and
verify return None without raising, while a genuinely blocking send on
the same input raises the protocol error — so register and verify did
not block and did not wait for the correlated response. -/
theorem c3_counterexample :
    (register "+15551234567" false "abcdefghij"
        [⟨"\x7b\x22id\x22: \x22abcdefghij\x22, \x22type\x22: \x22unexpected_error\x22\x7d",
          some (JVal.obj [("id", JVal.str "abcdefghij"),
            ("type", JVal.str "unexpected_error")])⟩]).result = Except.ok none
    ∧ (verify "+15551234567" "123456" "abcdefghij"
        [⟨"\x7b\x22id\x22: \x22abcdefghij\x22, \x22type\x22: \x22unexpected_error\x22\x7d",
          some (JVal.obj [("id", JVal.str "abcdefghij"),
            ("type", JVal.str "unexpected_error")])⟩]).result = Except.ok none
    ∧ (send_command [("type", JVal.str "register"),
          ("username", JVal.str "+15551234567"), ("voice", JVal.bool false)]
        "abcdefghij"
        [⟨"\x7b\x22id\x22: \x22abcdefghij\x22, \x22type\x22: \x22unexpected_error\x22\x7d",
          some (JVal.obj [("id", JVal.str "abcdefghij"),
            ("type", JVal.str "unexpected_error")])⟩] true).result
        = Except.error PyErr.protocolError :=
  ⟨rfl, rfl, rfl⟩

/-- Claim C3 amended: register and verify send their command in
non-blocking, fire-and-forget mode (the _send_command default): they
write the payload with the injected correlation id and return None
without reading a response, so they never raise ProtocolError whatever
the daemon sends back. -/
theorem c3_amended :
    ∀ (u code msgId : String) (v : Bool) (response : List RawLine),
      (register u v msgId response).result = Except.ok none
      ∧ (verify u code msgId response).result = Except.ok none
      ∧ (register u v msgId response).sent
          = [("type", JVal.str "register"), ("username", JVal.str u),
             ("voice", JVal.bool v), ("id", JVal.str msgId)]
      ∧ (verify u code msgId response).sent
          = [("type", JVal.str "verify"), ("username", JVal.str u),
             ("code", JVal.str code), ("id", JVal.str msgId)] :=
  fun _ _ _ _ _ => ⟨rfl, rfl, rfl, rfl⟩

/-- Claim C4 (confirmed): a command sent with block false returns
immediately after writing and never raises the protocol error; a
command sent with block true whose correlated envelope — the first
line of the response containing the correlation id as a substring and
parsing as JSON with a matching id field — has type unexpected_error
raises the protocol error. -/
theorem c4_blocking_errors :
    (∀ (payload : List (String × JVal)) (msgId : String)
        (response : List RawLine),
        (send_command payload msgId response false).result
          ≠ Except.error PyErr.protocolError)
    ∧ (∀ (payload : List (String × JVal)) (msgId raw : String)
        (kvs : List (String × JVal)) (pre rest : List RawLine),
        (∀ l ∈ pre, lineSkipped msgId l = true) →
        strContains raw msgId = true →
        jLookup "id" kvs = some (JVal.str msgId) →
        jLookup "type" kvs = some (JVal.str "unexpected_error") →
        (send_command payload msgId
            (pre ++ ⟨raw, some (JVal.obj kvs)⟩ :: rest) true).result
          = Except.error PyErr.protocolError) := by
  constructor
  · intro payload msgId response
    simp [send_command]
  · intro payload msgId raw kvs pre rest hpre hraw hid htype
    show scanLines msgId (pre ++ ⟨raw, some (JVal.obj kvs)⟩ :: rest)
        = Except.error PyErr.protocolError
    rw [scan_skip_all msgId pre _ hpre, scanLines_cons_some]
    simp [hraw, pyDictGet, pyIndex, isStrEq, hid, htype]

/-- Claim C4 witness: the theorem applied to a concrete blocking send
whose response holds one skipped noise line and then the correlated
unexpected_error envelope. -/
theorem c4_witness :
    (send_command [("type", JVal.str "send")] "abcdefghij"
        ([⟨"noise", none⟩]
          ++ ⟨"\x7b\x22id\x22: \x22abcdefghij\x22, \x22type\x22: \x22unexpected_error\x22\x7d",
              some (JVal.obj [("id", JVal.str "abcdefghij"),
                ("type", JVal.str "unexpected_error")])⟩ :: []) true).result
      = Except.error PyErr.protocolError :=
  c4_blocking_errors.2 [("type", JVal.str "send")] "abcdefghij"
    "\x7b\x22id\x22: \x22abcdefghij\x22, \x22type\x22: \x22unexpected_error\x22\x7d"
    [("id", JVal.str "abcdefghij"), ("type", JVal.str "unexpected_error")]
    [⟨"noise", none⟩] []
    (by intro l hl; rw [List.mem_singleton] at hl; subst hl; rfl)
    rfl rfl rfl

/-- Claim C8 counterexample: the claim says a response line that
contains the correlation id but is not valid JSON is skipped rather
than raising; at a concrete input the blocking call instead fails with
the JSON decode error (json.loads raises and nothing catches it). -/
theorem c8_counterexample :
    (send_command [("type", JVal.str "send")] "abcdefghij"
        [⟨"xx abcdefghij not json", none⟩] true).result
      = Except.error PyErr.jsonDecodeError := rfl

/-- Claim C8 amended: in a blocking send_command, every response line
that lacks the correlation id as a substring, and every line that
contains it and parses to an object whose id field differs from the
correlation id, is skipped and the scan proceeds to the next line; but
a line that contains the correlation id and fails to parse as JSON
raises a decode error, failing the call, rather than being skipped. -/
theorem c8_amended :
    (∀ (msgId : String) (pre rest : List RawLine),
        (∀ l ∈ pre, lineSkipped msgId l = true) →
        scanLines msgId (pre ++ rest) = scanLines msgId rest)
    ∧ (∀ (msgId raw : String) (rest : List RawLine),
        strContains raw msgId = true →
        scanLines msgId (⟨raw, none⟩ :: rest)
          = Except.error PyErr.jsonDecodeError) := by
  constructor
  · exact fun msgId pre rest h => scan_skip_all msgId pre rest h
  · intro msgId raw rest h
    rw [scanLines_cons_none, if_pos h]

/-- Claim C8 witness: the theorem applied to a concrete scan whose
first line lacks the id and is skipped, and to a concrete malformed
line containing the id that raises. -/
theorem c8_witness :
    scanLines "abcdefghij" ([⟨"noise", none⟩] ++ [⟨"zz", some JVal.null⟩])
        = scanLines "abcdefghij" [⟨"zz", some JVal.null⟩]
    ∧ scanLines "abcdefghij" [⟨"oops abcdefghij", none⟩]
        = Except.error PyErr.jsonDecodeError :=
  ⟨c8_amended.1 "abcdefghij" [⟨"noise", none⟩] [⟨"zz", some JVal.null⟩]
      (by intro l hl; rw [List.mem_singleton] at hl; subst hl; rfl),
    c8_amended.2 "abcdefghij" "oops abcdefghij" [] rfl⟩

/-- Claim C1 counterexample: the claim says that when a handler
raises, the processing of that message ends early, no reply is sent
for it, and no further registration is evaluated against it.  In the
source the except branch continues the inner registration loop, not
the outer message loop: with a first registration whose handler raises
and a second that matches and replies, the run sends a reply for the
very message whose handler failed, produced by a later registration —
where the claim demands no sends at all. -/
theorem c1_counterexample :
    runChat
        [⟨1, fun _ => true, fun _ => HandlerOutcome.raises⟩,
         ⟨2, fun _ => true, fun _ => HandlerOutcome.reply "pong"⟩]
        [⟨JVal.str "u", JVal.str "+15551234567", JVal.str "hi", none, none,
          none, JVal.obj [], []⟩]
      = ([SendAction.direct (JVal.str "+15551234567") "pong"], none) := rfl

/-- Claim C1 amended: when an invoked handler raises, the exception is
swallowed, no reply is sent for that handler invocation, and dispatch
continues with the next registration for the same message; in
particular when every registration raises on a message, no reply at
all is sent for it and the loop moves on to the next incoming message
unharmed. -/
theorem c1_amended :
    (∀ (msg : Message) (t : String) (r : Reg) (rest : List Reg),
        msg.text = JVal.str t → r.handler msg = HandlerOutcome.raises →
        tryHandlers msg (r :: rest) = tryHandlers msg rest)
    ∧ (∀ (hs : List Reg) (msg : Message) (ms : List Message) (t : String),
        msg.text = JVal.str t →
        (∀ r ∈ hs, r.handler msg = HandlerOutcome.raises) →
        dispatchMessage hs msg = Except.ok []
        ∧ runChat hs (msg :: ms) = runChat hs ms) := by
  constructor
  · exact fun msg t r rest h1 h2 => tryHandlers_raises msg t r rest h1 h2
  · intro hs msg ms t htext hall
    have hd : dispatchMessage hs msg = Except.ok [] := by
      unfold dispatchMessage
      by_cases hp : pyTruthy msg.text = true
      · rw [if_pos hp, tryHandlers_all_raises msg t hs htext hall]
      · rw [if_neg hp]
    refine ⟨hd, ?_⟩
    rw [runChat_cons, hd]
    simp

/-- Claim C1 witness: the amended theorem applied to one registration
whose handler raises on a concrete message, showing the loop simply
proceeds as if that message had produced nothing. -/
theorem c1_witness :
    runChat [⟨1, fun _ => true, fun _ => HandlerOutcome.raises⟩]
        [⟨JVal.str "u", JVal.str "+1", JVal.str "hi", none, none, none,
          JVal.obj [], []⟩]
      = runChat [⟨1, fun _ => true, fun _ => HandlerOutcome.raises⟩] [] :=
  (c1_amended.2 [⟨1, fun _ => true, fun _ => HandlerOutcome.raises⟩]
      ⟨JVal.str "u", JVal.str "+1", JVal.str "hi", none, none, none,
        JVal.obj [], []⟩ [] "hi" rfl
      (by intro r hr; rw [List.mem_singleton] at hr; subst hr; rfl)).2

/-- Claim C5 (confirmed): after any sequence of registrations the
dispatcher list is ordered by ascending order key, each order class
keeps the original registration sequence (the stable sort touches only
the first key, so registering B then A with equal order keeps B
first), and run_chat walks the registration list front to back: the
head registration, when it matches and replies, is the one whose reply
is routed and dispatch stops there. -/
theorem c5_ordering :
    (∀ rs : List Reg,
        List.Pairwise (fun a b => a.order ≤ b.order) (registerAll rs))
    ∧ (∀ (rs : List Reg) (q : Int),
        (registerAll rs).filter (fun r => r.order == q)
          = rs.filter (fun r => r.order == q))
    ∧ (∀ (msg : Message) (t rep : String) (r : Reg) (rest : List Reg)
        (a : SendAction),
        msg.text = JVal.str t → r.pattern t = true →
        r.handler msg = HandlerOutcome.reply rep →
        routeReply msg rep = Except.ok a →
        tryHandlers msg (r :: rest) = Except.ok [a]) := by
  refine ⟨fun rs => foldl_chat_handler_pairwise rs [] (by simp),
    fun rs q => by
      have h := foldl_chat_handler_filter rs [] q
      simpa using h, ?_⟩
  intro msg t rep r rest a htext hpat hh hroute
  rw [tryHandlers_cons, htext]
  simp [hpat, hh, hroute]

/-- Claim C5 witness: the theorem applied to a concrete singleton
registration list and message, with every hypothesis discharged by
evaluation. -/
theorem c5_witness :
    tryHandlers
        ⟨JVal.str "u", JVal.str "+1", JVal.str "hi", none, none, none,
          JVal.obj [], []⟩
        [⟨100, fun _ => true, fun _ => HandlerOutcome.reply "pong"⟩]
      = Except.ok [SendAction.direct (JVal.str "+1") "pong"] :=
  c5_ordering.2.2
    ⟨JVal.str "u", JVal.str "+1", JVal.str "hi", none, none, none,
      JVal.obj [], []⟩ "hi" "pong"
    ⟨100, fun _ => true, fun _ => HandlerOutcome.reply "pong"⟩ []
    (SendAction.direct (JVal.str "+1") "pong") rfl rfl rfl rfl

/-- Claim C6 counterexample: the claim says a dispatched message whose
group_info contains a groupId routes the reply via the group-send path
and never via direct send.  A concrete message whose group_info
contains the key groupId with the empty string as value is routed via
the direct send to message.source, because the code tests the
truthiness of the value, not the presence of the key. -/
theorem c6_counterexample :
    runChat [⟨100, fun _ => true, fun _ => HandlerOutcome.reply "pong"⟩]
        [⟨JVal.str "u", JVal.str "+15551234567", JVal.str "hi", none, none,
          none, JVal.obj [("groupId", JVal.str "")], []⟩]
      = ([SendAction.direct (JVal.str "+15551234567") "pong"], none) := rfl

/-- Claim C6 amended: a dispatched message whose group_info contains a
groupId with a truthy value routes the reply via send_group_message
with exactly that value and never via direct send; a message whose
group_info contains no groupId key, or contains one with a falsy
value, routes the reply via send_message to message.source. -/
theorem c6_amended :
    (∀ (msg : Message) (rep : String) (gi : List (String × JVal)) (g : JVal),
        msg.group_info = JVal.obj gi → jLookup "groupId" gi = some g →
        pyTruthy g = true →
        routeReply msg rep = Except.ok (SendAction.group g rep))
    ∧ (∀ (msg : Message) (rep : String) (gi : List (String × JVal)),
        msg.group_info = JVal.obj gi → jLookup "groupId" gi = none →
        routeReply msg rep = Except.ok (SendAction.direct msg.source rep))
    ∧ (∀ (msg : Message) (rep : String) (gi : List (String × JVal)) (g : JVal),
        msg.group_info = JVal.obj gi → jLookup "groupId" gi = some g →
        pyTruthy g = false →
        routeReply msg rep = Except.ok (SendAction.direct msg.source rep)) := by
  refine ⟨?_, ?_, ?_⟩
  · intro msg rep gi g hgi hlk ht
    unfold routeReply
    rw [hgi]
    simp [pyDictGet, hlk, ht]
  · intro msg rep gi hgi hlk
    unfold routeReply
    rw [hgi]
    simp [pyDictGet, hlk]
  · intro msg rep gi g hgi hlk ht
    unfold routeReply
    rw [hgi]
    simp [pyDictGet, hlk, ht]

/-- Claim C6 witness: the amended theorem applied to a concrete
message carrying a truthy groupId, routed to the group-send path. -/
theorem c6_witness :
    routeReply
        ⟨JVal.str "u", JVal.str "+1", JVal.str "hi", none, none, none,
          JVal.obj [("groupId", JVal.str "G1")], []⟩ "pong"
      = Except.ok (SendAction.group (JVal.str "G1") "pong") :=
  c6_amended.1
    ⟨JVal.str "u", JVal.str "+1", JVal.str "hi", none, none, none,
      JVal.obj [("groupId", JVal.str "G1")], []⟩ "pong"
    [("groupId", JVal.str "G1")] (JVal.str "G1") rfl rfl rfl

/-- Claim C9 (confirmed): the reply routing of run_chat tests the
truthiness of the groupId value, not the presence of the key: a
message whose group_info holds the key groupId with a falsy value —
the empty string, None, or 0 — has its reply routed via the direct
send to message.source, not via the group send. -/
theorem c9_falsy_group_direct :
    ∀ (msg : Message) (rep : String) (gi : List (String × JVal)) (g : JVal),
      msg.group_info = JVal.obj gi → jLookup "groupId" gi = some g →
      (g = JVal.str "" ∨ g = JVal.null ∨ g = JVal.num 0) →
      routeReply msg rep = Except.ok (SendAction.direct msg.source rep) := by
  intro msg rep gi g hgi hlk hfalsy
  have ht : pyTruthy g = false := by
    rcases hfalsy with h | h | h <;> subst h <;> rfl
  unfold routeReply
  rw [hgi]
  simp [pyDictGet, hlk, ht]

/-- Claim C9 witness: the theorem applied to a concrete message whose
groupId is the empty string. -/
theorem c9_witness :
    routeReply
        ⟨JVal.str "u", JVal.str "+15551234567", JVal.str "hi", none, none,
          none, JVal.obj [("groupId", JVal.str "")], []⟩ "pong"
      = Except.ok (SendAction.direct (JVal.str "+15551234567") "pong") :=
  c9_falsy_group_direct
    ⟨JVal.str "u", JVal.str "+15551234567", JVal.str "hi", none, none, none,
      JVal.obj [("groupId", JVal.str "")], []⟩ "pong"
    [("groupId", JVal.str "")] (JVal.str "") rfl rfl (Or.inl rfl)

end Pysignald
